import Mathlib

/-!
# Looking Glass host, Windows platform layer (`platform.c`)

A shallow embedding of the event, thread and shared-memory primitives of
`c-host/platform/Windows/src/platform.c`.

* The operating system is an explicit parameter: a record `OS σ` of the Win32
  entry points the code calls, acting on an abstract kernel state `σ`.  Every
  call made by the program is also appended to a trace, so that statements such
  as "no device-control call is issued" can be read off the trace.
* C structures are Lean structures, passed and returned by value; a function
  that mutates `*event` returns the new contents of the structure.  Where the
  code takes an array of event pointers (`os_waitEvents`), memory is a map from
  addresses to structures and the array is a list of addresses.
* `unsigned int` / `DWORD` values are natural numbers; the only subtractions in
  the code are guarded by the comparison that precedes them.  `LONGLONG`
  performance-counter values are integers.
* `while(true)` loops take a fuel argument bounding the number of iterations;
  a kernel wait that never returns is the result `none`.
* The model is sequential: writes of other threads to the `volatile` fields are
  not part of it.
-/

namespace LookingGlass

/-! ## Win32 constants -/

abbrev HANDLE := Nat
abbrev DWORD := Nat

def WAIT_OBJECT_0 : DWORD := 0
def WAIT_ABANDONED : DWORD := 0x80
def WAIT_ABANDONED_0 : DWORD := 0x80
def WAIT_TIMEOUT : DWORD := 0x102
def WAIT_FAILED : DWORD := 0xFFFFFFFF
def INFINITE : DWORD := 0xFFFFFFFF

/-- Modelled from the spec: the cache modes of `ivshmem.h`, a header that is
not part of the sources at hand; the code names only the write-combined one. -/
inductive IVSHMEM_CACHE
  | IVSHMEM_CACHE_NONCACHED
  | IVSHMEM_CACHE_CACHED
  | IVSHMEM_CACHE_WRITECOMBINED
deriving DecidableEq, Repr

/-- Modelled from the spec: the device-control codes of `ivshmem.h` used by the
code (size query, map request carrying its `IVSHMEM_MMAP_CONFIG`, release). -/
inductive IoCtl
  | IOCTL_IVSHMEM_REQUEST_SIZE
  | IOCTL_IVSHMEM_REQUEST_MMAP (cacheMode : IVSHMEM_CACHE)
  | IOCTL_IVSHMEM_RELEASE_MMAP
deriving DecidableEq, Repr

/-- Modelled from the spec: the `IVSHMEM_MMAP` record of `ivshmem.h`, which the
driver fills in on a map request.  The code reads only its `ptr` field. -/
structure IVSHMEM_MMAP where
  peerID : Nat
  size : Nat
  ptr : Nat
  vectors : Nat
deriving DecidableEq, Repr

/-- The all-zero record left by `memset(&app.shmemMap, 0, sizeof(IVSHMEM_MMAP))`. -/
def IVSHMEM_MMAP.zero : IVSHMEM_MMAP :=
  { peerID := 0, size := 0, ptr := 0, vectors := 0 }

/-! ## Program data -/

/-- The fields of `struct AppState` used by the modelled functions. -/
structure AppState where
  perfFreq : Int
  shmemHandle : HANDLE
  shmemOwned : Bool
  shmemMap : IVSHMEM_MMAP
deriving DecidableEq, Repr

/-- The C `struct osThreadHandle`; the field `context` is the source's
context pointer handed to the entry function. -/
structure osThreadHandle where
  name : String
  function : Nat → Int
  context : Nat
  handle : HANDLE
  threadID : DWORD
  resultCode : Int

/-- The C `struct osEventHandle`. -/
structure osEventHandle where
  lock : Int
  reset : Bool
  handle : HANDLE
  wrapped : Bool
  msSpinTime : Nat
  signaled : Bool
deriving DecidableEq, Repr

/-! ## The operating system interface -/

/-- One call into the operating system, with the arguments the program passed. -/
inductive Call
  | WaitForSingleObject (h : HANDLE) (ms : DWORD)
  | WaitForMultipleObjects (hs : List HANDLE) (waitAll : Bool) (ms : DWORD)
  | SetEvent (h : HANDLE)
  | ResetEvent (h : HANDLE)
  | CloseHandle (h : HANDLE)
  | CreateEvent (manualReset : Bool) (state : Bool)
  | CreateThread
  | QueryPerformanceCounter
  | DeviceIoControl (h : HANDLE) (code : IoCtl)
deriving DecidableEq, Repr

/-- The Win32 entry points used by the code, as transitions of a kernel state
`σ`.  A wait returns `none` when it never returns.  `DeviceIoControl` receives
the current contents of the output buffer (`none` for a null buffer) and
returns the `BOOL` result with the new contents.  `malloc` returns the address
of the new block, `0` for `NULL`. -/
structure OS (σ : Type) where
  WaitForSingleObject : σ → HANDLE → DWORD → Option (DWORD × σ)
  WaitForMultipleObjects : σ → List HANDLE → Bool → DWORD → Option (DWORD × σ)
  SetEvent : σ → HANDLE → Bool × σ
  ResetEvent : σ → HANDLE → Bool × σ
  CloseHandle : σ → HANDLE → Bool × σ
  CreateEvent : σ → Bool → Bool → HANDLE × σ
  CreateThread : σ → (HANDLE × DWORD) × σ
  QueryPerformanceCounter : σ → Int × σ
  DeviceIoControl : σ → HANDLE → IoCtl → Option IVSHMEM_MMAP → (Bool × Option IVSHMEM_MMAP) × σ
  malloc : σ → Nat × σ

/-- The kernel state together with the trace of the calls made so far. -/
structure World (σ : Type) where
  os : σ
  trace : List Call
deriving DecidableEq, Repr

variable {σ : Type}

def sysWaitForSingleObject (os : OS σ) (w : World σ) (h : HANDLE) (ms : DWORD) :
    Option (DWORD × World σ) :=
  match os.WaitForSingleObject w.os h ms with
  | none => none
  | some (r, s) => some (r, { os := s, trace := w.trace ++ [Call.WaitForSingleObject h ms] })

def sysWaitForMultipleObjects (os : OS σ) (w : World σ) (hs : List HANDLE) (waitAll : Bool)
    (ms : DWORD) : Option (DWORD × World σ) :=
  match os.WaitForMultipleObjects w.os hs waitAll ms with
  | none => none
  | some (r, s) =>
    some (r, { os := s, trace := w.trace ++ [Call.WaitForMultipleObjects hs waitAll ms] })

def sysSetEvent (os : OS σ) (w : World σ) (h : HANDLE) : Bool × World σ :=
  ((os.SetEvent w.os h).1, { os := (os.SetEvent w.os h).2, trace := w.trace ++ [Call.SetEvent h] })

def sysResetEvent (os : OS σ) (w : World σ) (h : HANDLE) : Bool × World σ :=
  ((os.ResetEvent w.os h).1,
    { os := (os.ResetEvent w.os h).2, trace := w.trace ++ [Call.ResetEvent h] })

def sysCloseHandle (os : OS σ) (w : World σ) (h : HANDLE) : Bool × World σ :=
  ((os.CloseHandle w.os h).1,
    { os := (os.CloseHandle w.os h).2, trace := w.trace ++ [Call.CloseHandle h] })

def sysCreateEvent (os : OS σ) (w : World σ) (manualReset state : Bool) : HANDLE × World σ :=
  ((os.CreateEvent w.os manualReset state).1,
    { os := (os.CreateEvent w.os manualReset state).2,
      trace := w.trace ++ [Call.CreateEvent manualReset state] })

def sysCreateThread (os : OS σ) (w : World σ) : (HANDLE × DWORD) × World σ :=
  ((os.CreateThread w.os).1,
    { os := (os.CreateThread w.os).2, trace := w.trace ++ [Call.CreateThread] })

def sysQueryPerformanceCounter (os : OS σ) (w : World σ) : Int × World σ :=
  ((os.QueryPerformanceCounter w.os).1,
    { os := (os.QueryPerformanceCounter w.os).2,
      trace := w.trace ++ [Call.QueryPerformanceCounter] })

def sysDeviceIoControl (os : OS σ) (w : World σ) (h : HANDLE) (code : IoCtl)
    (out : Option IVSHMEM_MMAP) : (Bool × Option IVSHMEM_MMAP) × World σ :=
  ((os.DeviceIoControl w.os h code out).1,
    { os := (os.DeviceIoControl w.os h code out).2,
      trace := w.trace ++ [Call.DeviceIoControl h code] })

/-- The C library allocator; not a kernel call, so it leaves the trace alone. -/
def sysMalloc (os : OS σ) (w : World σ) : Nat × World σ :=
  ((os.malloc w.os).1, { os := (os.malloc w.os).2, trace := w.trace })

/-! ## Shared-memory device -/

/-- The C `os_shmemMmap(void **ptr)`: the result is the return value, the new
contents of `*ptr` (`ptr` is its old contents), the new `app` and the world. -/
def os_shmemMmap (os : OS σ) (app : AppState) (w : World σ) (ptr : Nat) :
    Bool × Nat × AppState × World σ :=
  if app.shmemOwned then
    (true, app.shmemMap.ptr, app, w)
  else
    let r := sysDeviceIoControl os w app.shmemHandle
      (IoCtl.IOCTL_IVSHMEM_REQUEST_MMAP IVSHMEM_CACHE.IVSHMEM_CACHE_WRITECOMBINED)
      (some IVSHMEM_MMAP.zero)
    let app1 : AppState := { app with shmemMap := r.1.2.getD IVSHMEM_MMAP.zero }
    if !r.1.1 then
      (false, ptr, app1, r.2)
    else
      (true, app1.shmemMap.ptr, { app1 with shmemOwned := true }, r.2)

/-- The C `os_shmemUnmap()`. -/
def os_shmemUnmap (os : OS σ) (app : AppState) (w : World σ) : AppState × World σ :=
  if !app.shmemOwned then
    (app, w)
  else
    let r := sysDeviceIoControl os w app.shmemHandle IoCtl.IOCTL_IVSHMEM_RELEASE_MMAP none
    if !r.1.1 then
      (app, r.2)
    else
      ({ app with shmemOwned := false }, r.2)

/-! ## Threads -/

/-- The C `threadWrapper`: the body run by the new thread, as its effect on the
handle structure it was given. -/
def threadWrapper (handle : osThreadHandle) : osThreadHandle :=
  { handle with resultCode := handle.function handle.context }

/-- The C `os_createThread`.  `garbage` is the content of the freshly allocated
result-code field, which the function does not initialise.  The result is the
return value, the new `*handle` (`none` for `NULL`) and the world. -/
def os_createThread (os : OS σ) (w : World σ) (name : String) (function : Nat → Int)
    (context : Nat) (garbage : Int) : Bool × Option osThreadHandle × World σ :=
  let r := sysCreateThread os w
  let handle : osThreadHandle :=
    { name := name, function := function, context := context,
      handle := r.1.1, threadID := r.1.2, resultCode := garbage }
  if handle.handle = 0 then
    (false, none, r.2)
  else
    (true, some handle, r.2)

/-- The C `os_joinThread`.  `handle` is the structure as the joiner reads it
once the wait has returned, `resultCode` the old contents of `*resultCode`
(`none` for a null pointer).  The result is the return value, the new contents
of `*resultCode` and the world. -/
def os_joinThread (os : OS σ) (handle : osThreadHandle) (resultCode : Option Int) :
    Nat → World σ → Option (Bool × Option Int × World σ)
  | 0, _ => none
  | fuel + 1, w =>
    match sysWaitForSingleObject os w handle.handle INFINITE with
    | none => none
    | some (r, w1) =>
      if r = WAIT_OBJECT_0 then
        some (true, resultCode.map (fun _ => handle.resultCode),
          (sysCloseHandle os w1 handle.handle).2)
      else if r = WAIT_ABANDONED ∨ r = WAIT_TIMEOUT then
        os_joinThread os handle resultCode fuel w1
      else if r = WAIT_FAILED then
        some (false, resultCode, (sysCloseHandle os w1 handle.handle).2)
      else
        some (false, resultCode, w1)

/-! ## Events -/

/-- The C `os_createEvent`: the address of the new structure with its contents,
`none` for `NULL`. -/
def os_createEvent (os : OS σ) (w : World σ) (autoReset : Bool) (msSpinTime : Nat) :
    Option (Nat × osEventHandle) × World σ :=
  let m := sysMalloc os w
  if m.1 = 0 then
    (none, m.2)
  else
    let c := sysCreateEvent os m.2 (if autoReset then false else true) false
    let event : osEventHandle :=
      { lock := 0, reset := autoReset, handle := c.1, wrapped := false,
        msSpinTime := msSpinTime, signaled := false }
    if event.handle = 0 then
      (none, c.2)
    else
      (some (m.1, event), c.2)

/-- The C `os_wrapEvent(HANDLE handle)`: the address of the new structure with
its contents, `none` for `NULL`.  The source assigns the structure's own
address to its `handle` field. -/
def os_wrapEvent (os : OS σ) (w : World σ) (handle : HANDLE) :
    Option (Nat × osEventHandle) × World σ :=
  let _unused := handle
  let m := sysMalloc os w
  if m.1 = 0 then
    (none, m.2)
  else
    let event : osEventHandle :=
      { lock := 0, reset := false, handle := m.1, wrapped := true,
        msSpinTime := 0, signaled := false }
    (some (m.1, event), m.2)

/-- Lines 577 to 587 of `os_waitEvent`: the spin time and the timeout left for
the kernel wait, from the event's spin budget and the caller's timeout. -/
def os_waitEvent.spinSplit (TIMEOUT_INFINITE : Nat) (msSpinTime timeout : Nat) : Nat × Nat :=
  let spinTime := msSpinTime
  if timeout ≠ TIMEOUT_INFINITE then
    if timeout > msSpinTime then
      (spinTime, timeout - msSpinTime)
    else
      (spinTime - timeout, 0)
  else
    (spinTime, timeout)

/-- The busy loop of `os_waitEvent`, lines 592 to 597. -/
def os_waitEvent.spin (os : OS σ) (event : osEventHandle) (deadline : Int) :
    Nat → World σ → Option (World σ)
  | 0, _ => none
  | fuel + 1, w =>
    if !event.signaled then
      let q := sysQueryPerformanceCounter os w
      if q.1 ≥ deadline then
        some q.2
      else
        os_waitEvent.spin os event deadline fuel q.2
    else
      some w

/-- The kernel wait loop of `os_waitEvent`, lines 608 to 634. -/
def os_waitEvent.block (os : OS σ) (TIMEOUT_INFINITE : Nat) (event : osEventHandle)
    (timeout : Nat) : Nat → World σ → Option (Bool × osEventHandle × World σ)
  | 0, _ => none
  | fuel + 1, w =>
    match sysWaitForSingleObject os w event.handle
        (if timeout = TIMEOUT_INFINITE then INFINITE else timeout) with
    | none => none
    | some (r, w1) =>
      if r = WAIT_OBJECT_0 then
        some (true, if !event.reset then { event with signaled := true } else event, w1)
      else if r = WAIT_ABANDONED then
        os_waitEvent.block os TIMEOUT_INFINITE event timeout fuel w1
      else if r = WAIT_TIMEOUT then
        if timeout = TIMEOUT_INFINITE then
          os_waitEvent.block os TIMEOUT_INFINITE event timeout fuel w1
        else
          some (false, event, w1)
      else if r = WAIT_FAILED then
        some (false, event, w1)
      else
        some (false, event, w1)

/-- The C `os_waitEvent`: the return value, the new contents of `*event` and
the world; `none` when the call does not return within the fuel. -/
def os_waitEvent (os : OS σ) (TIMEOUT_INFINITE : Nat) (app : AppState) (fuel : Nat)
    (w : World σ) (event : osEventHandle) (timeout : Nat) :
    Option (Bool × osEventHandle × World σ) :=
  if !event.wrapped then
    if event.signaled then
      some (true, if event.reset then { event with signaled := false } else event, w)
    else if timeout = 0 then
      let ret := event.signaled
      some (ret, if event.reset then { event with signaled := false } else event, w)
    else if event.msSpinTime ≠ 0 then
      let st := os_waitEvent.spinSplit TIMEOUT_INFINITE event.msSpinTime timeout
      let q := sysQueryPerformanceCounter os w
      let deadline := q.1 + (Int.tdiv app.perfFreq 1000) * st.1
      match os_waitEvent.spin os event deadline fuel q.2 with
      | none => none
      | some w1 =>
        if event.signaled then
          some (true, if event.reset then { event with signaled := false } else event, w1)
        else
          os_waitEvent.block os TIMEOUT_INFINITE event st.2 fuel w1
    else
      os_waitEvent.block os TIMEOUT_INFINITE event timeout fuel w
  else
    os_waitEvent.block os TIMEOUT_INFINITE event timeout fuel w

/-- The C `os_signalEvent`. -/
def os_signalEvent (os : OS σ) (w : World σ) (event : osEventHandle) :
    Bool × osEventHandle × World σ :=
  let event1 : osEventHandle := { event with signaled := true }
  let r := sysSetEvent os w event1.handle
  (r.1, event1, r.2)

/-- The C `os_resetEvent`. -/
def os_resetEvent (os : OS σ) (w : World σ) (event : osEventHandle) :
    Bool × osEventHandle × World σ :=
  let event1 : osEventHandle := { event with signaled := false }
  let r := sysResetEvent os w event1.handle
  (r.1, event1, r.2)

/-- Program memory holding the event structures, by address. -/
abbrev Heap := Nat → osEventHandle

/-- The polling loop of `os_waitEvents`, lines 651 to 653: `events` is the part
of the array still to visit, `i` the index of its first element. -/
def os_waitEvents.poll (os : OS σ) (TIMEOUT_INFINITE : Nat) (app : AppState) (fuel : Nat)
    (result : DWORD) :
    List Nat → Nat → Heap → List HANDLE → World σ → Option (Heap × List HANDLE × World σ)
  | [], _, heap, handles, w => some (heap, handles, w)
  | p :: rest, i, heap, handles, w =>
    if i ≠ result then
      match os_waitEvent os TIMEOUT_INFINITE app fuel w (heap p) 0 with
      | none => none
      | some (b, e, w1) =>
        os_waitEvents.poll os TIMEOUT_INFINITE app fuel result rest (i + 1)
          (Function.update heap p e) (if !b then handles.set i 0 else handles) w1
    else
      os_waitEvents.poll os TIMEOUT_INFINITE app fuel result rest (i + 1) heap handles w

/-- The `while(true)` loop of `os_waitEvents`, lines 645 to 679. -/
def os_waitEvents.loop (os : OS σ) (TIMEOUT_INFINITE : Nat) (app : AppState)
    (events : List Nat) (waitAll : Bool) (timeout : Nat) (handles : List HANDLE)
    (pollFuel : Nat) : Nat → Heap → World σ → Option (Bool × Heap × World σ)
  | 0, _, _ => none
  | fuel + 1, heap, w =>
    match sysWaitForMultipleObjects os w handles waitAll
        (if timeout = TIMEOUT_INFINITE then INFINITE else timeout) with
    | none => none
    | some (result, w1) =>
      if WAIT_OBJECT_0 ≤ result ∧ result < events.length then
        match os_waitEvents.poll os TIMEOUT_INFINITE app pollFuel result events 0 heap
            handles w1 with
        | none => none
        | some (heap1, _, w2) => some (true, heap1, w2)
      else if WAIT_ABANDONED_0 ≤ result ∧ result - WAIT_ABANDONED_0 < events.length then
        os_waitEvents.loop os TIMEOUT_INFINITE app events waitAll timeout handles pollFuel
          fuel heap w1
      else if result = WAIT_TIMEOUT then
        if timeout = TIMEOUT_INFINITE then
          os_waitEvents.loop os TIMEOUT_INFINITE app events waitAll timeout handles pollFuel
            fuel heap w1
        else
          some (false, heap, w1)
      else if result = WAIT_FAILED then
        some (false, heap, w1)
      else
        some (false, heap, w1)

/-- The C `os_waitEvents(events, count, waitAll, timeout)`: `events` is the
array of `count` event addresses, `heap` the memory they point into.  The
result is the return value, the new memory and the world. -/
def os_waitEvents (os : OS σ) (TIMEOUT_INFINITE : Nat) (app : AppState) (fuel : Nat)
    (heap : Heap) (w : World σ) (events : List Nat) (waitAll : Bool) (timeout : Nat) :
    Option (Bool × Heap × World σ) :=
  os_waitEvents.loop os TIMEOUT_INFINITE app events waitAll timeout
    (events.map (fun p => (heap p).handle)) fuel fuel heap w

/-! ## A reference kernel

`Sim` is a small executable kernel used to run the code on concrete inputs: an
event object is a boolean that `SetEvent` sets, `ResetEvent` clears and a
successful wait on an auto-reset object clears.  No other thread runs, so a
wait on an unsignaled object times out, or never returns when the timeout is
`INFINITE`.  Results listed in `script` are handed out first, one per wait
call, which lets a run contain abandoned or timed-out waits. -/

/-- A kernel event object. -/
structure KObject where
  handle : HANDLE
  manualReset : Bool
  state : Bool
deriving DecidableEq, Repr

/-- The state of the reference kernel. -/
structure Sim where
  objects : List KObject
  nextHandle : HANDLE
  nextBlock : Nat
  clock : Int
  script : List DWORD
  mapping : Option IVSHMEM_MMAP
  releaseOk : Bool
deriving DecidableEq, Repr

def Sim.find (s : Sim) (h : HANDLE) : Option KObject :=
  s.objects.find? (fun o => o.handle == h)

def Sim.setState (s : Sim) (h : HANDLE) (b : Bool) : Sim :=
  { s with objects := s.objects.map (fun o => if o.handle == h then { o with state := b } else o) }

/-- A satisfied wait on `h`: an auto-reset object is cleared. -/
def Sim.consume (s : Sim) (h : HANDLE) : Sim :=
  { s with objects :=
      s.objects.map (fun o =>
        if o.handle == h && !o.manualReset then { o with state := false } else o) }

def Sim.isSet (s : Sim) (h : HANDLE) : Bool :=
  match s.find h with
  | some o => o.state
  | none => false

def Sim.WaitForSingleObject (s : Sim) (h : HANDLE) (ms : DWORD) : Option (DWORD × Sim) :=
  match s.script with
  | r :: rest => some (r, { s with script := rest })
  | [] =>
    match s.find h with
    | none => some (WAIT_FAILED, s)
    | some o =>
      if o.state then some (WAIT_OBJECT_0, s.consume h)
      else if ms = INFINITE then none
      else some (WAIT_TIMEOUT, s)

def Sim.WaitForMultipleObjects (s : Sim) (hs : List HANDLE) (waitAll : Bool) (ms : DWORD) :
    Option (DWORD × Sim) :=
  match s.script with
  | r :: rest => some (r, { s with script := rest })
  | [] =>
    if hs.any (fun h => (s.find h).isNone) then some (WAIT_FAILED, s)
    else if waitAll then
      if hs.all s.isSet then some (WAIT_OBJECT_0, hs.foldl Sim.consume s)
      else if ms = INFINITE then none
      else some (WAIT_TIMEOUT, s)
    else
      match hs.findIdx? s.isSet with
      | some i => some (WAIT_OBJECT_0 + i, s.consume (hs.getD i 0))
      | none => if ms = INFINITE then none else some (WAIT_TIMEOUT, s)

/-- The reference kernel as an `OS`. -/
def simOS : OS Sim where
  WaitForSingleObject := Sim.WaitForSingleObject
  WaitForMultipleObjects := Sim.WaitForMultipleObjects
  SetEvent := fun s h => ((s.find h).isSome, s.setState h true)
  ResetEvent := fun s h => ((s.find h).isSome, s.setState h false)
  CloseHandle := fun s h =>
    ((s.find h).isSome, { s with objects := s.objects.filter (fun o => o.handle != h) })
  CreateEvent := fun s manualReset state =>
    (s.nextHandle,
      { s with
        objects := s.objects ++ [{ handle := s.nextHandle, manualReset := manualReset,
                                   state := state }]
        nextHandle := s.nextHandle + 4 })
  CreateThread := fun s => ((s.nextHandle, 1), { s with nextHandle := s.nextHandle + 4 })
  QueryPerformanceCounter := fun s => (s.clock + 1, { s with clock := s.clock + 1 })
  DeviceIoControl := fun s _ code out =>
    match code with
    | IoCtl.IOCTL_IVSHMEM_REQUEST_SIZE => ((true, out), s)
    | IoCtl.IOCTL_IVSHMEM_REQUEST_MMAP _ =>
      match s.mapping with
      | some m => ((true, some m), s)
      | none => ((false, out), s)
    | IoCtl.IOCTL_IVSHMEM_RELEASE_MMAP => ((s.releaseOk, out), s)
  malloc := fun s => (s.nextBlock, { s with nextBlock := s.nextBlock + 64 })

/-- A freshly booted reference kernel: no objects, clock at zero, a driver that
maps the region at address `0x7f0000`. -/
def Sim.boot : Sim :=
  { objects := [], nextHandle := 4, nextBlock := 4096, clock := 0, script := [],
    mapping := some { peerID := 0, size := 1024, ptr := 0x7f0000, vectors := 0 },
    releaseOk := true }

/-- The world at program start on the reference kernel. -/
def Sim.start : World Sim := { os := Sim.boot, trace := [] }

/-- The value of the `TIMEOUT_INFINITE` macro used on the reference kernel. -/
def Sim.TIMEOUT_INFINITE : Nat := 0xFFFFFFFF

/-- The application state on the reference kernel: a 1 kHz performance
counter (one tick per millisecond), device handle `100`, nothing mapped. -/
def Sim.app : AppState :=
  { perfFreq := 1000, shmemHandle := 100, shmemOwned := false, shmemMap := IVSHMEM_MMAP.zero }

/-! ## Vocabulary of the statements -/

/-- The kernel wait on thread handle `h` reports completion after exactly `n`
results that `os_joinThread` retries (`WAIT_ABANDONED` or `WAIT_TIMEOUT`). -/
def completesAfter (os : OS σ) (h : HANDLE) : Nat → σ → Bool
  | 0, s =>
    match os.WaitForSingleObject s h INFINITE with
    | some (r, _) => r == WAIT_OBJECT_0
    | none => false
  | n + 1, s =>
    match os.WaitForSingleObject s h INFINITE with
    | some (r, s1) => (r == WAIT_ABANDONED || r == WAIT_TIMEOUT) && completesAfter os h n s1
    | none => false

/-- A call on one event: signal, reset, or wait with a timeout and a fuel. -/
inductive EventOp
  | signal
  | reset
  | wait (timeout : Nat) (fuel : Nat)
deriving DecidableEq, Repr

/-- Whether a sequence of calls is free of `os_resetEvent`. -/
def noReset : List EventOp → Bool
  | [] => true
  | EventOp.reset :: _ => false
  | _ :: rest => noReset rest

/-- One call on the event; `none` when a wait does not return. -/
def runOp (os : OS σ) (TIMEOUT_INFINITE : Nat) (app : AppState) (event : osEventHandle)
    (w : World σ) : EventOp → Option (osEventHandle × World σ)
  | EventOp.signal => some (os_signalEvent os w event).2
  | EventOp.reset => some (os_resetEvent os w event).2
  | EventOp.wait timeout fuel =>
    match os_waitEvent os TIMEOUT_INFINITE app fuel w event timeout with
    | none => none
    | some r => some r.2

/-- A sequence of calls on the event, in order. -/
def runOps (os : OS σ) (TIMEOUT_INFINITE : Nat) (app : AppState) :
    osEventHandle → World σ → List EventOp → Option (osEventHandle × World σ)
  | event, w, [] => some (event, w)
  | event, w, op :: rest =>
    match runOp os TIMEOUT_INFINITE app event w op with
    | none => none
    | some (event1, w1) => runOps os TIMEOUT_INFINITE app event1 w1 rest

/-- The results of successive waits on one event, in order; `none` when one of
them does not return. -/
def waitResults (os : OS σ) (TIMEOUT_INFINITE : Nat) (app : AppState) (fuel : Nat) :
    osEventHandle → World σ → List Nat → Option (List Bool)
  | _, _, [] => some []
  | event, w, timeout :: rest =>
    match os_waitEvent os TIMEOUT_INFINITE app fuel w event timeout with
    | none => none
    | some (b, event1, w1) =>
      (waitResults os TIMEOUT_INFINITE app fuel event1 w1 rest).map (fun bs => b :: bs)

/-- Whether `os_waitEvents` goes round its loop again on the result `x`. -/
def os_waitEvents.retried (TIMEOUT_INFINITE : Nat) (count timeout : Nat) (x : DWORD) : Bool :=
  !(decide (x < count)) &&
    ((decide (WAIT_ABANDONED_0 ≤ x) && decide (x - WAIT_ABANDONED_0 < count)) ||
      (x == WAIT_TIMEOUT && timeout == TIMEOUT_INFINITE))

/-- The kernel wait on `handles` reports the result `r` after exactly `n`
results that `os_waitEvents` retries. -/
def reportsAfter (os : OS σ) (TIMEOUT_INFINITE : Nat) (handles : List HANDLE) (waitAll : Bool)
    (timeout : Nat) (r : DWORD) : Nat → σ → Bool
  | 0, s =>
    match os.WaitForMultipleObjects s handles waitAll
        (if timeout = TIMEOUT_INFINITE then INFINITE else timeout) with
    | some (x, _) => x == r
    | none => false
  | n + 1, s =>
    match os.WaitForMultipleObjects s handles waitAll
        (if timeout = TIMEOUT_INFINITE then INFINITE else timeout) with
    | some (x, s1) =>
      os_waitEvents.retried TIMEOUT_INFINITE handles.length timeout x &&
        reportsAfter os TIMEOUT_INFINITE handles waitAll timeout r n s1
    | none => false

/-! ## Concrete runs on the reference kernel -/

/-- The application state once the region is mapped on the reference kernel. -/
def Sim.mappedApp : AppState :=
  { Sim.app with
    shmemOwned := true
    shmemMap := { peerID := 0, size := 1024, ptr := 0x7f0000, vectors := 0 } }

/-- A reference kernel whose driver refuses the release request. -/
def Sim.stuck : World Sim := { os := { Sim.boot with releaseOk := false }, trace := [] }

/-- A reference kernel on which the next three waits return `WAIT_TIMEOUT`,
`WAIT_ABANDONED` and `WAIT_OBJECT_0`. -/
def Sim.joining : World Sim :=
  { os := { Sim.boot with script := [WAIT_TIMEOUT, WAIT_ABANDONED, WAIT_OBJECT_0] }, trace := [] }

/-- A thread entry function returning `-7`. -/
def Sim.entry : Nat → Int := fun _ => -7

/-- A reference kernel holding one event object, handle `8`, that was created
outside this layer. -/
def Sim.external : World Sim :=
  { os := { Sim.boot with
            objects := [{ handle := 8, manualReset := true, state := false }]
            nextHandle := 12 },
    trace := [] }

/-- An event made by `os_createEvent autoReset msSpinTime` on the booted
reference kernel and signaled once with `os_signalEvent`. -/
def Sim.signaledOnce (autoReset : Bool) (msSpinTime : Nat) :
    Option (osEventHandle × World Sim) :=
  match os_createEvent simOS Sim.start autoReset msSpinTime with
  | (some (_, event), w) => some (os_signalEvent simOS w event).2
  | (none, _) => none

/-- An event made by `os_createEvent autoReset msSpinTime` on the booted
reference kernel, never signaled. -/
def Sim.created (autoReset : Bool) (msSpinTime : Nat) : Option (osEventHandle × World Sim) :=
  match os_createEvent simOS Sim.start autoReset msSpinTime with
  | (some (_, event), w) => some (event, w)
  | (none, _) => none

/-- The structure that `os_createEvent false 0` returns on the booted reference
kernel. -/
def Sim.manualEvent : osEventHandle :=
  { lock := 0, reset := false, handle := 4, wrapped := false, msSpinTime := 0, signaled := false }

/-- The world after that creation. -/
def Sim.afterCreate : World Sim :=
  { os := { Sim.boot with
            objects := [{ handle := 4, manualReset := true, state := false }]
            nextHandle := 8
            nextBlock := 4160 },
    trace := [Call.CreateEvent true false] }

/-- The world after these calls on that event: a wait with timeout 1, which
times out, a signal, a wait with timeout 5 and a second signal. -/
def Sim.afterOps : World Sim :=
  { os := { Sim.boot with
            objects := [{ handle := 4, manualReset := true, state := true }]
            nextHandle := 8
            nextBlock := 4160 },
    trace := [Call.CreateEvent true false, Call.WaitForSingleObject 4 1, Call.SetEvent 4,
      Call.SetEvent 4] }

/-- An all-zero event structure, the content of memory not holding an event. -/
def Sim.blank : osEventHandle :=
  { lock := 0, reset := false, handle := 0, wrapped := false, msSpinTime := 0, signaled := false }

/-- Two events made by `os_createEvent autoReset 0` on the booted reference
kernel, at addresses `4096` and `4160`; the second is signaled with
`os_signalEvent`, the first one too when `signalFirst` is set.  The result is
the memory holding the two structures and the world, in which the kernel will
hand out the results in `script` before answering from its objects. -/
def Sim.setup (autoReset signalFirst : Bool) (script : List DWORD) : Heap × World Sim :=
  match os_createEvent simOS Sim.start autoReset 0 with
  | (some (p1, e1), w1) =>
    match os_createEvent simOS w1 autoReset 0 with
    | (some (p2, e2), w2) =>
      let s2 := os_signalEvent simOS w2 e2
      let s1 := if signalFirst then os_signalEvent simOS s2.2.2 e1 else (true, e1, s2.2.2)
      (Function.update (Function.update (fun _ => Sim.blank) p1 s1.2.1) p2 s2.2.1,
        { s1.2.2 with os := { s1.2.2.os with script := script } })
    | (none, w2) => (fun _ => Sim.blank, w2)
  | (none, w1) => (fun _ => Sim.blank, w1)

/-! ## Shared-memory device: statements -/

/-- C3: when a first `os_shmemMmap` call succeeds, a second call issued in the
resulting state (no unmap in between) returns true with the same pointer, makes
no operating-system call at all (the world, trace included, is returned as it
was, so no device-control request is issued), and leaves the stored mapping and
the mapped flag as they were. -/
theorem os_shmemMmap_twice (os : OS σ) (app app1 : AppState) (w w1 : World σ)
    (ptr p1 ptr2 : Nat) (h : os_shmemMmap os app w ptr = (true, p1, app1, w1)) :
    os_shmemMmap os app1 w1 ptr2 = (true, p1, app1, w1) ∧
      (os_shmemMmap os app1 w1 ptr2).2.2.2.trace = w1.trace ∧
      (os_shmemMmap os app1 w1 ptr2).2.2.1.shmemMap = app1.shmemMap ∧
      (os_shmemMmap os app1 w1 ptr2).2.2.1.shmemOwned = app1.shmemOwned := by
  have key : os_shmemMmap os app1 w1 ptr2 = (true, p1, app1, w1) := by
    unfold os_shmemMmap at h
    by_cases ho : app.shmemOwned = true
    · simp only [ho, if_true] at h
      injection h with _ h
      injection h with hp h
      injection h with ha hw
      subst ha hw
      simp [os_shmemMmap, ho, hp]
    · simp only [ho] at h
      by_cases hr : (sysDeviceIoControl os w app.shmemHandle
          (IoCtl.IOCTL_IVSHMEM_REQUEST_MMAP IVSHMEM_CACHE.IVSHMEM_CACHE_WRITECOMBINED)
          (some IVSHMEM_MMAP.zero)).1.1 = true
      · simp [hr] at h
        obtain ⟨hp, ha, hw⟩ := h
        subst ha hw
        simp [os_shmemMmap, hp]
      · simp [hr] at h
  rw [key]
  exact ⟨rfl, rfl, rfl, rfl⟩

/-- C3, witness: on the reference kernel the first map call succeeds with the
driver's pointer and the second one repeats it without a further call. -/
theorem os_shmemMmap_twice_witness :
    os_shmemMmap simOS Sim.app Sim.start 0 =
        (true, 0x7f0000,
          { Sim.app with
            shmemOwned := true
            shmemMap := { peerID := 0, size := 1024, ptr := 0x7f0000, vectors := 0 } },
          { os := Sim.boot,
            trace := [Call.DeviceIoControl 100
              (IoCtl.IOCTL_IVSHMEM_REQUEST_MMAP IVSHMEM_CACHE.IVSHMEM_CACHE_WRITECOMBINED)] }) ∧
      (os_shmemMmap simOS
          { Sim.app with
            shmemOwned := true
            shmemMap := { peerID := 0, size := 1024, ptr := 0x7f0000, vectors := 0 } }
          { os := Sim.boot,
            trace := [Call.DeviceIoControl 100
              (IoCtl.IOCTL_IVSHMEM_REQUEST_MMAP IVSHMEM_CACHE.IVSHMEM_CACHE_WRITECOMBINED)] }
          7).2.1 = 0x7f0000 :=
  ⟨by decide,
    by rw [(os_shmemMmap_twice simOS Sim.app _ Sim.start _ 0 0x7f0000 7 (by decide)).1]⟩

/-- C4: `os_shmemUnmap` called when not mapped returns the state and the world
untouched (no call is made); called when mapped it makes exactly one call, the
release device-control request on the device handle, and afterwards the mapped
flag is cleared if that request succeeded and still set if it failed; every
other field of the state is as before. -/
theorem os_shmemUnmap_spec (os : OS σ) (app : AppState) (w : World σ) :
    (app.shmemOwned = false → os_shmemUnmap os app w = (app, w)) ∧
    (app.shmemOwned = true →
      (os_shmemUnmap os app w).2.trace =
          w.trace ++ [Call.DeviceIoControl app.shmemHandle IoCtl.IOCTL_IVSHMEM_RELEASE_MMAP] ∧
      (os_shmemUnmap os app w).2.os =
          (os.DeviceIoControl w.os app.shmemHandle IoCtl.IOCTL_IVSHMEM_RELEASE_MMAP none).2 ∧
      (os_shmemUnmap os app w).1 =
          { app with
            shmemOwned :=
              !(os.DeviceIoControl w.os app.shmemHandle
                  IoCtl.IOCTL_IVSHMEM_RELEASE_MMAP none).1.1 }) := by
  constructor
  · intro h
    simp [os_shmemUnmap, h]
  · intro h
    unfold os_shmemUnmap
    simp only [h, Bool.not_true, Bool.false_eq_true, if_false]
    by_cases hr : (sysDeviceIoControl os w app.shmemHandle
        IoCtl.IOCTL_IVSHMEM_RELEASE_MMAP none).1.1 = true
    · have hr2 := hr
      simp only [sysDeviceIoControl] at hr2
      simp [hr, hr2, sysDeviceIoControl]
    · have hr2 := hr
      simp only [sysDeviceIoControl] at hr2
      simp only [Bool.not_eq_true] at hr hr2
      cases app
      simp_all [sysDeviceIoControl]

/-- C4, witness: on the reference kernel an unmap without a mapping changes
nothing, a successful unmap clears the flag, a refused one keeps it. -/
theorem os_shmemUnmap_spec_witness :
    os_shmemUnmap simOS Sim.app Sim.start = (Sim.app, Sim.start) ∧
      (os_shmemUnmap simOS Sim.mappedApp Sim.start).1 =
        { Sim.mappedApp with shmemOwned := false } ∧
      (os_shmemUnmap simOS Sim.mappedApp Sim.stuck).1 = Sim.mappedApp :=
  ⟨(os_shmemUnmap_spec simOS Sim.app Sim.start).1 (by decide),
    by rw [((os_shmemUnmap_spec simOS Sim.mappedApp Sim.start).2 (by decide)).2.2]; decide,
    by rw [((os_shmemUnmap_spec simOS Sim.mappedApp Sim.stuck).2 (by decide)).2.2]; decide⟩

/-! ## Threads: statements -/

/-- C5: for every integer `V` and every thread made by `os_createThread` whose
entry function returns `V`, `os_joinThread` returns true and stores exactly `V`
in the result code whenever the kernel wait reports completion after any
number `n` of `WAIT_ABANDONED` or `WAIT_TIMEOUT` results (given fuel for more
than `n` rounds of its loop).  The joiner reads the handle after the thread
body `threadWrapper` has run, which is what the completed wait stands for. -/
theorem os_joinThread_result (os : OS σ) (w w1 : World σ) (name : String) (f : Nat → Int)
    (context : Nat) (garbage old V : Int) (h0 : osThreadHandle)
    (hcreate : os_createThread os w name f context garbage = (true, some h0, w1))
    (hV : f context = V) (n : Nat) :
    ∀ (fuel : Nat) (w2 : World σ), n < fuel → completesAfter os h0.handle n w2.os = true →
      ∃ w3, os_joinThread os (threadWrapper h0) (some old) fuel w2 = some (true, some V, w3) := by
  have hh : h0.function = f ∧ h0.context = context := by
    unfold os_createThread at hcreate
    by_cases hz : (sysCreateThread os w).1.1 = 0
    · simp [hz] at hcreate
    · simp only [hz, if_false] at hcreate
      injection hcreate with _ hcreate
      injection hcreate with hcreate _
      injection hcreate with hcreate
      subst hcreate
      exact ⟨rfl, rfl⟩
  have hres : (threadWrapper h0).resultCode = V := by
    simp [threadWrapper, hh.1, hh.2, hV]
  have hhandle : (threadWrapper h0).handle = h0.handle := rfl
  induction n with
  | zero =>
    intro fuel w2 hfuel hc
    obtain ⟨k, rfl⟩ : ∃ k, fuel = k + 1 := ⟨fuel - 1, by omega⟩
    unfold completesAfter at hc
    cases hw : os.WaitForSingleObject w2.os h0.handle INFINITE with
    | none => simp [hw] at hc
    | some rs =>
      obtain ⟨r, s1⟩ := rs
      simp only [hw, beq_iff_eq] at hc
      subst hc
      simp only [os_joinThread, sysWaitForSingleObject, hhandle, hw, if_true, Option.map_some',
        hres]
      exact ⟨_, rfl⟩
  | succ n ih =>
    intro fuel w2 hfuel hc
    obtain ⟨k, rfl⟩ : ∃ k, fuel = k + 1 := ⟨fuel - 1, by omega⟩
    unfold completesAfter at hc
    cases hw : os.WaitForSingleObject w2.os h0.handle INFINITE with
    | none => simp [hw] at hc
    | some rs =>
      obtain ⟨r, s1⟩ := rs
      simp only [hw, Bool.and_eq_true, Bool.or_eq_true, beq_iff_eq] at hc
      obtain ⟨hr, hrest⟩ := hc
      have hne : r ≠ WAIT_OBJECT_0 := by
        rcases hr with hr | hr <;> · rw [hr]; decide
      obtain ⟨w3, hw3⟩ := ih k
        { os := s1, trace := w2.trace ++ [Call.WaitForSingleObject h0.handle INFINITE] }
        (by omega) hrest
      refine ⟨w3, ?_⟩
      simp only [os_joinThread, sysWaitForSingleObject, hhandle, hw, hne, if_false, hr, if_true]
      exact hw3

/-- C5, witness: on the reference kernel a thread whose entry function returns
`-7` is joined after one timed-out and one abandoned wait, with result `-7`. -/
theorem os_joinThread_result_witness :
    ∃ w3, os_joinThread simOS
        (threadWrapper
          { name := "worker", function := Sim.entry, context := 0, handle := 4, threadID := 1,
            resultCode := 99 })
        (some 0) 3 Sim.joining = some (true, some (-7), w3) :=
  os_joinThread_result simOS Sim.start
    { os := { Sim.boot with nextHandle := 8 }, trace := [Call.CreateThread] }
    "worker" Sim.entry 0 99 0 (-7)
    { name := "worker", function := Sim.entry, context := 0, handle := 4, threadID := 1,
      resultCode := 99 }
    rfl rfl 2 3 Sim.joining (by decide) (by decide)

/-! ## Events: creation and destruction -/

/-- C6: the code at a failing input.  On the reference kernel holding the
external event handle `8`, `os_wrapEvent 8` returns the structure allocated at
address `4096` whose stored kernel handle is `4096`, its own address, and not
`8`; the structure is marked wrapped and has a zero spin budget.  The stored
handle never depends on the argument. -/
theorem os_wrapEvent_stores_own_address :
    os_wrapEvent simOS Sim.external 8 =
        (some (4096,
          { lock := 0, reset := false, handle := 4096, wrapped := true, msSpinTime := 0,
            signaled := false }),
          { os := { Sim.external.os with nextBlock := 4160 }, trace := [] }) ∧
      (∀ (τ : Type) (os : OS τ) (w : World τ) (h h2 : HANDLE),
        os_wrapEvent os w h = os_wrapEvent os w h2) :=
  ⟨by decide, fun _ _ _ _ _ => rfl⟩

/-- What `os_createEvent` stores in a structure it returns. -/
theorem os_createEvent_fields (os : OS σ) (w w1 : World σ) (autoReset : Bool) (msSpinTime p : Nat)
    (event : osEventHandle)
    (h : os_createEvent os w autoReset msSpinTime = (some (p, event), w1)) :
    event.reset = autoReset ∧ event.wrapped = false ∧ event.msSpinTime = msSpinTime ∧
      event.signaled = false := by
  unfold os_createEvent at h
  simp only at h
  split_ifs at h <;> simp only [Prod.mk.injEq, Option.some.injEq, reduceCtorEq, false_and] at h
  all_goals
    obtain ⟨⟨_, he⟩, _⟩ := h
    subst he
    exact ⟨rfl, rfl, rfl, rfl⟩

/-- The kernel wait loop changes the structure at most by setting the cached
flag of a manual-reset event. -/
theorem os_waitEvent_block_cases (os : OS σ) (TI : Nat) (event : osEventHandle) (timeout : Nat) :
    ∀ (fuel : Nat) (w w1 : World σ) (b : Bool) (event1 : osEventHandle),
      os_waitEvent.block os TI event timeout fuel w = some (b, event1, w1) →
      event1 = event ∨ (event.reset = false ∧ event1 = { event with signaled := true }) := by
  intro fuel
  induction fuel with
  | zero => intro w w1 b event1 h; simp [os_waitEvent.block] at h
  | succ k ih =>
    intro w w1 b event1 h
    unfold os_waitEvent.block at h
    split at h
    · simp at h
    · split_ifs at h
      all_goals
        first
        | exact ih _ _ _ _ h
        | (simp only [Option.some.injEq, Prod.mk.injEq] at h
           obtain ⟨_, he, _⟩ := h
           subst he
           simp_all)

/-- A call of `os_waitEvent` changes the structure at most in its cached flag:
an auto-reset event may have it cleared, a manual-reset event may have it set. -/
theorem os_waitEvent_cases (os : OS σ) (TI : Nat) (app : AppState) (fuel : Nat) (w w1 : World σ)
    (event event1 : osEventHandle) (timeout : Nat) (b : Bool)
    (h : os_waitEvent os TI app fuel w event timeout = some (b, event1, w1)) :
    event1 = event ∨ (event.reset = false ∧ event1 = { event with signaled := true }) ∨
      (event.reset = true ∧ event1 = { event with signaled := false }) := by
  have hblock : ∀ (t : Nat) (w0 : World σ),
      os_waitEvent.block os TI event t fuel w0 = some (b, event1, w1) →
      event1 = event ∨ (event.reset = false ∧ event1 = { event with signaled := true }) ∨
        (event.reset = true ∧ event1 = { event with signaled := false }) := by
    intro t w0 hb
    rcases os_waitEvent_block_cases os TI event t fuel w0 w1 b event1 hb with h1 | h1
    · exact Or.inl h1
    · exact Or.inr (Or.inl h1)
  unfold os_waitEvent at h
  simp only at h
  split_ifs at h
  all_goals
    first
    | exact hblock _ _ h
    | (simp only [Option.some.injEq, Prod.mk.injEq] at h
       obtain ⟨_, he, _⟩ := h
       subst he
       simp_all)
    | (split at h
       · simp at h
       · exact hblock _ _ h)


/-- A non-blocking wait on an owned event returns the cached flag without any
call, clearing the flag of an auto-reset event. -/
theorem os_waitEvent_poll_owned (os : OS σ) (TI : Nat) (app : AppState) (fuel : Nat)
    (w : World σ) (event : osEventHandle) (hw : event.wrapped = false) :
    os_waitEvent os TI app fuel w event 0 =
      some (event.signaled, if event.reset then { event with signaled := false } else event, w) := by
  unfold os_waitEvent
  cases hs : event.signaled <;> simp [hw]

/-- A wait on an owned manual-reset event whose cached flag is set returns true
at once and changes nothing. -/
theorem os_waitEvent_manual_signaled (os : OS σ) (TI : Nat) (app : AppState) (fuel : Nat)
    (w : World σ) (event : osEventHandle) (timeout : Nat) (hw : event.wrapped = false)
    (hr : event.reset = false) (hs : event.signaled = true) :
    os_waitEvent os TI app fuel w event timeout = some (true, event, w) := by
  unfold os_waitEvent
  simp [hw, hr, hs]

/-- Running two sequences of calls one after the other. -/
theorem runOps_append (os : OS σ) (TI : Nat) (app : AppState) (l1 l2 : List EventOp) :
    ∀ (event : osEventHandle) (w : World σ),
      runOps os TI app event w (l1 ++ l2) =
        (runOps os TI app event w l1).bind (fun r => runOps os TI app r.1 r.2 l2) := by
  induction l1 with
  | nil => intro event w; simp [runOps]
  | cons op rest ih =>
    intro event w
    rw [List.cons_append]
    simp only [runOps]
    cases hop : runOp os TI app event w op with
    | none => simp
    | some r =>
      obtain ⟨e1, w1⟩ := r
      exact ih e1 w1

/-- Every call keeps the reset mode and the wrapped mark of the event. -/
theorem runOp_keeps_mode (os : OS σ) (TI : Nat) (app : AppState) (event event1 : osEventHandle)
    (w w1 : World σ) (op : EventOp) (h : runOp os TI app event w op = some (event1, w1)) :
    event1.reset = event.reset ∧ event1.wrapped = event.wrapped := by
  cases op with
  | signal =>
    simp only [runOp, os_signalEvent, Option.some.injEq, Prod.mk.injEq] at h
    rw [← h.1]
    exact ⟨rfl, rfl⟩
  | reset =>
    simp only [runOp, os_resetEvent, Option.some.injEq, Prod.mk.injEq] at h
    rw [← h.1]
    exact ⟨rfl, rfl⟩
  | wait timeout fuel =>
    simp only [runOp] at h
    cases hwt : os_waitEvent os TI app fuel w event timeout with
    | none => simp [hwt] at h
    | some r =>
      obtain ⟨b, e2, w2⟩ := r
      simp only [hwt, Option.some.injEq, Prod.mk.injEq] at h
      obtain ⟨he, _⟩ := h
      subst he
      rcases os_waitEvent_cases os TI app fuel w w2 event e2 timeout b hwt with h1 | h1 | h1
      · rw [h1]; exact ⟨rfl, rfl⟩
      · rw [h1.2]; exact ⟨rfl, rfl⟩
      · rw [h1.2]; exact ⟨rfl, rfl⟩

/-- A sequence of calls keeps the reset mode and the wrapped mark of the event. -/
theorem runOps_keeps_mode (os : OS σ) (TI : Nat) (app : AppState) (ops : List EventOp) :
    ∀ (event event1 : osEventHandle) (w w1 : World σ),
      runOps os TI app event w ops = some (event1, w1) →
      event1.reset = event.reset ∧ event1.wrapped = event.wrapped := by
  induction ops with
  | nil =>
    intro event event1 w w1 h
    simp only [runOps, Option.some.injEq, Prod.mk.injEq] at h
    rw [h.1]
    exact ⟨rfl, rfl⟩
  | cons op rest ih =>
    intro event event1 w w1 h
    simp only [runOps] at h
    cases hop : runOp os TI app event w op with
    | none => simp [hop] at h
    | some r =>
      obtain ⟨e2, w2⟩ := r
      simp only [hop] at h
      have h1 := runOp_keeps_mode os TI app event e2 w w2 op hop
      have h2 := ih e2 event1 w2 w1 h
      exact ⟨h2.1.trans h1.1, h2.2.trans h1.2⟩

/-- On an owned manual-reset event, signals and waits keep a set cached flag. -/
theorem runOps_keeps_signaled (os : OS σ) (TI : Nat) (app : AppState) (ops : List EventOp) :
    ∀ (event event1 : osEventHandle) (w w1 : World σ), noReset ops = true →
      event.wrapped = false → event.reset = false → event.signaled = true →
      runOps os TI app event w ops = some (event1, w1) → event1.signaled = true := by
  induction ops with
  | nil =>
    intro event event1 w w1 _ _ _ hs h
    simp only [runOps, Option.some.injEq, Prod.mk.injEq] at h
    rw [← h.1]
    exact hs
  | cons op rest ih =>
    intro event event1 w w1 hn hw hr hs h
    simp only [runOps] at h
    cases op with
    | reset => simp [noReset] at hn
    | signal =>
      simp only [runOp, os_signalEvent] at h
      exact ih { event with signaled := true } event1 _ w1 (by simpa [noReset] using hn)
        hw hr rfl h
    | wait timeout fuel =>
      simp only [runOp, os_waitEvent_manual_signaled os TI app fuel w event timeout hw hr hs] at h
      exact ih _ event1 _ w1 (by simpa [noReset] using hn) hw hr hs h

/-! ## Events: signal and wait -/

/-- C1: the code at a failing input.  On the reference kernel (the kernel
object is a boolean that `SetEvent` sets and a successful wait on an auto-reset
object clears; no other thread runs) an auto-reset event with spin budget 0 is
signaled once; the following `os_waitEvent` calls with timeouts 0 and 1 both
return true: the first consumes the cached flag, the second the kernel
object.  The same happens with spin budget 2 and timeouts 5, 5, 5, and with two
infinite timeouts. -/
theorem autoReset_signal_observed_twice :
    (Sim.signaledOnce true 0).bind
        (fun r => waitResults simOS Sim.TIMEOUT_INFINITE Sim.app 4 r.1 r.2 [0, 1]) =
        some [true, true] ∧
      (Sim.signaledOnce true 2).bind
        (fun r => waitResults simOS Sim.TIMEOUT_INFINITE Sim.app 8 r.1 r.2 [5, 5, 5]) =
        some [true, true, false] ∧
      (Sim.signaledOnce true 0).bind
        (fun r => waitResults simOS Sim.TIMEOUT_INFINITE Sim.app 4 r.1 r.2
          [Sim.TIMEOUT_INFINITE, Sim.TIMEOUT_INFINITE]) =
        some [true, true] := by
  decide

/-- C2: for every manual-reset event made by `os_createEvent false msSpinTime`
and every sequence of calls on it made of arbitrary calls `pre`, one
`os_signalEvent`, and then signals and waits `post` without `os_resetEvent`,
when the sequence has run, `os_waitEvent event 0` returns true in any world,
makes no call, and leaves the event, its cached flag set, as it was. -/
theorem manual_wait_zero_after_signal (os : OS σ) (TI : Nat) (app : AppState)
    (w0 w1 wa w : World σ) (msSpinTime p : Nat) (e0 e : osEventHandle)
    (hcreate : os_createEvent os w0 false msSpinTime = (some (p, e0), w1))
    (pre post : List EventOp) (hpost : noReset post = true)
    (hrun : runOps os TI app e0 wa (pre ++ EventOp.signal :: post) = some (e, w))
    (fuel : Nat) (w2 : World σ) :
    os_waitEvent os TI app fuel w2 e 0 = some (true, e, w2) ∧ e.signaled = true := by
  obtain ⟨hr0, hw0, _, _⟩ := os_createEvent_fields os w0 w1 false msSpinTime p e0 hcreate
  rw [runOps_append] at hrun
  cases hpre : runOps os TI app e0 wa pre with
  | none => simp [hpre] at hrun
  | some r =>
    obtain ⟨e1, w3⟩ := r
    simp only [hpre, Option.some_bind, runOps, runOp, os_signalEvent] at hrun
    obtain ⟨hr1, hw1⟩ := runOps_keeps_mode os TI app pre e0 e1 wa w3 hpre
    have hr2 : ({ e1 with signaled := true } : osEventHandle).reset = false := hr1.trans hr0
    have hw2 : ({ e1 with signaled := true } : osEventHandle).wrapped = false := hw1.trans hw0
    obtain ⟨hr3, hw3⟩ := runOps_keeps_mode os TI app post _ e _ w hrun
    have hs : e.signaled = true :=
      runOps_keeps_signaled os TI app post _ e _ w hpost hw2 hr2 rfl hrun
    exact ⟨os_waitEvent_manual_signaled os TI app fuel w2 e 0 (hw3.trans hw2) (hr3.trans hr2) hs,
      hs⟩

/-- C2, witness: on the reference kernel, after a timed-out wait, a signal, a
wait and a second signal, the non-blocking wait returns true. -/
theorem manual_wait_zero_after_signal_witness :
    os_waitEvent simOS Sim.TIMEOUT_INFINITE Sim.app 0 Sim.afterOps
        { Sim.manualEvent with signaled := true } 0 =
      some (true, { Sim.manualEvent with signaled := true }, Sim.afterOps) :=
  (manual_wait_zero_after_signal simOS Sim.TIMEOUT_INFINITE Sim.app Sim.start Sim.afterCreate
    Sim.afterCreate Sim.afterOps 0 4096 Sim.manualEvent { Sim.manualEvent with signaled := true }
    (by decide) [EventOp.wait 1 4] [EventOp.wait 5 4, EventOp.signal] (by decide) (by decide)
    0 Sim.afterOps).1

/-- C8: the code at a failing input.  With spin budget 10 and timeout 3 the
code computes a spin time of 7 ms and a kernel timeout of 0, not a spin time
of min 10 3 = 3; the two do not add up to 3.  Run on the reference kernel,
whose counter advances one tick, one millisecond, per query: the counter reads
1 at the start of the spin and 8 at its end, and the kernel wait is issued with
timeout 0. -/
theorem os_waitEvent_spin_exceeds_timeout :
    os_waitEvent.spinSplit Sim.TIMEOUT_INFINITE 10 3 = (7, 0) ∧
      (Sim.created true 10).bind
        (fun r => (os_waitEvent simOS Sim.TIMEOUT_INFINITE Sim.app 16 r.2 r.1 3).map
          (fun x => (x.1, x.2.2.os.clock, x.2.2.trace))) =
        some (false, 8,
          [Call.CreateEvent false false, Call.QueryPerformanceCounter,
            Call.QueryPerformanceCounter, Call.QueryPerformanceCounter,
            Call.QueryPerformanceCounter, Call.QueryPerformanceCounter,
            Call.QueryPerformanceCounter, Call.QueryPerformanceCounter,
            Call.QueryPerformanceCounter, Call.WaitForSingleObject 4 0]) := by
  decide


/-! ## Events: waiting on several events -/

/-- When the kernel wait reports slot `r` after `n` retried results, the loop
of `os_waitEvents` ends in the polling pass for `r` and returns true. -/
theorem os_waitEvents_loop_reports (os : OS σ) (TI : Nat) (app : AppState) (events : List Nat)
    (waitAll : Bool) (timeout : Nat) (handles : List HANDLE) (pollFuel : Nat) (r : Nat)
    (hr : r < events.length) (hlen : handles.length = events.length) (heap : Heap) :
    ∀ (n fuel : Nat) (w : World σ), n < fuel →
      reportsAfter os TI handles waitAll timeout r n w.os = true →
      ∃ w1, os_waitEvents.loop os TI app events waitAll timeout handles pollFuel fuel heap w =
        (os_waitEvents.poll os TI app pollFuel r events 0 heap handles w1).map
          (fun x => (true, x.1, x.2.2)) := by
  intro n
  induction n with
  | zero =>
    intro fuel w hfuel hk
    obtain ⟨k, rfl⟩ : ∃ k, fuel = k + 1 := ⟨fuel - 1, by omega⟩
    unfold reportsAfter at hk
    cases hw : os.WaitForMultipleObjects w.os handles waitAll
        (if timeout = TI then INFINITE else timeout) with
    | none => simp [hw] at hk
    | some xs =>
      obtain ⟨x, s1⟩ := xs
      simp only [hw, beq_iff_eq] at hk
      subst hk
      refine ⟨{ os := s1, trace := w.trace ++
        [Call.WaitForMultipleObjects handles waitAll
          (if timeout = TI then INFINITE else timeout)] }, ?_⟩
      unfold os_waitEvents.loop
      simp only [sysWaitForMultipleObjects, hw]
      have hc : WAIT_OBJECT_0 ≤ x ∧ x < events.length := ⟨Nat.zero_le _, hr⟩
      simp only [hc, and_self, if_true]
      cases os_waitEvents.poll os TI app pollFuel x events 0 heap handles _ with
      | none => rfl
      | some y => rfl
  | succ n ih =>
    intro fuel w hfuel hk
    obtain ⟨k, rfl⟩ : ∃ k, fuel = k + 1 := ⟨fuel - 1, by omega⟩
    unfold reportsAfter at hk
    cases hw : os.WaitForMultipleObjects w.os handles waitAll
        (if timeout = TI then INFINITE else timeout) with
    | none => simp [hw] at hk
    | some xs =>
      obtain ⟨x, s1⟩ := xs
      simp only [hw, Bool.and_eq_true] at hk
      obtain ⟨hx, hrest⟩ := hk
      simp only [os_waitEvents.retried, Bool.and_eq_true, Bool.not_eq_true', decide_eq_false_iff_not,
        Bool.or_eq_true, decide_eq_true_eq, beq_iff_eq, hlen] at hx
      obtain ⟨hx1, hx2⟩ := hx
      obtain ⟨w1, hw1⟩ := ih k
        { os := s1, trace := w.trace ++
          [Call.WaitForMultipleObjects handles waitAll
            (if timeout = TI then INFINITE else timeout)] } (by omega) hrest
      refine ⟨w1, ?_⟩
      rw [← hw1]
      conv_lhs => unfold os_waitEvents.loop
      simp only [sysWaitForMultipleObjects, hw]
      have hc : ¬ (WAIT_OBJECT_0 ≤ x ∧ x < events.length) := fun h => hx1 h.2
      simp only [hc, if_false]
      by_cases hab : WAIT_ABANDONED_0 ≤ x ∧ x - WAIT_ABANDONED_0 < events.length
      · simp only [hab, and_self, if_true]
      · rcases hx2 with hx2 | hx2
        · exact absurd hx2 hab
        · simp only [hx2.1, hx2.2, if_true, ite_self]

/-- The polling pass over owned events makes no call and always returns; it
keeps the reset mode and the wrapped mark of every structure and leaves every
manual-reset structure as it was. -/
theorem os_waitEvents_poll_owned (os : OS σ) (TI : Nat) (app : AppState) (fuel : Nat)
    (result : DWORD) :
    ∀ (events : List Nat) (i : Nat) (heap : Heap) (handles : List HANDLE) (w : World σ),
      (∀ p ∈ events, (heap p).wrapped = false) →
      ∃ heap1 handles1,
        os_waitEvents.poll os TI app fuel result events i heap handles w =
          some (heap1, handles1, w) ∧
        ∀ q, (heap1 q).wrapped = (heap q).wrapped ∧ (heap1 q).reset = (heap q).reset ∧
          ((heap q).reset = false → heap1 q = heap q) := by
  intro events
  induction events with
  | nil =>
    intro i heap handles w _
    exact ⟨heap, handles, rfl, fun q => ⟨rfl, rfl, fun _ => rfl⟩⟩
  | cons p rest ih =>
    intro i heap handles w ho
    have hp : (heap p).wrapped = false := ho p (List.mem_cons_self _ _)
    by_cases hi : i = result
    · subst hi
      obtain ⟨heap1, handles1, h1, h2⟩ := ih (i + 1) heap handles w
        (fun q hq => ho q (List.mem_cons_of_mem _ hq))
      refine ⟨heap1, handles1, ?_, h2⟩
      simp only [os_waitEvents.poll, ne_eq, not_true_eq_false, if_false]
      exact h1
    · have hstep : ∀ q, (Function.update heap p
          (if (heap p).reset = true then { heap p with signaled := false } else heap p) q).wrapped
            = (heap q).wrapped ∧
          (Function.update heap p
            (if (heap p).reset = true then { heap p with signaled := false } else heap p) q).reset
            = (heap q).reset ∧
          ((heap q).reset = false → Function.update heap p
            (if (heap p).reset = true then { heap p with signaled := false } else heap p) q
            = heap q) := by
        intro q
        by_cases hq : q = p
        · subst hq
          cases hres : (heap q).reset <;> simp [hres]
        · simp [Function.update_noteq hq]
      obtain ⟨heap1, handles1, h1, h2⟩ := ih (i + 1) _
        (if !(heap p).signaled then handles.set i 0 else handles) w
        (fun q hq => by rw [(hstep q).1]; exact ho q (List.mem_cons_of_mem _ hq))
      refine ⟨heap1, handles1, ?_, ?_⟩
      · simp only [os_waitEvents.poll, ne_eq, hi, not_false_eq_true, if_true,
          os_waitEvent_poll_owned os TI app fuel w (heap p) hp]
        exact h1
      · intro q
        obtain ⟨a1, a2, a3⟩ := h2 q
        obtain ⟨b1, b2, b3⟩ := hstep q
        refine ⟨a1.trans b1, a2.trans b2, fun hq => ?_⟩
        rw [a3 (b2.trans hq), b3 hq]

/-- C10, as stated, fails: on the reference kernel two auto-reset events are
both signaled and the kernel wait reports slot 0.  The second event had its
cached flag set before the call; after the call the flag is clear and
`os_waitEvent` on it with timeout 0 returns false. -/
theorem os_waitEvents_clears_autoReset_flag :
    ((Sim.setup true true []).1 4160).signaled = true ∧
      (os_waitEvents simOS Sim.TIMEOUT_INFINITE Sim.app 2 (Sim.setup true true []).1
          (Sim.setup true true []).2 [4096, 4160] false Sim.TIMEOUT_INFINITE).map
        (fun x => (x.1, (x.2.1 4160).signaled,
          (os_waitEvent simOS Sim.TIMEOUT_INFINITE Sim.app 2 x.2.2 (x.2.1 4160) 0).map
            (fun y => y.1))) =
        some (true, false, some false) := by
  decide

/-- C10, amended: for every array of owned events and every slot `r` the
kernel wait reports (after any number `n` of retried results), `os_waitEvents`
returns true, and each other event `i ≠ r` that is manual-reset and whose
cached flag was set before the call still has it set after the call, so that a
following `os_waitEvent` on it with timeout 0 returns true. -/
theorem os_waitEvents_keeps_manual_flag (os : OS σ) (TI : Nat) (app : AppState) (heap : Heap)
    (w : World σ) (events : List Nat) (waitAll : Bool) (timeout r n fuel : Nat)
    (howned : ∀ p ∈ events, (heap p).wrapped = false) (hr : r < events.length)
    (hfuel : n < fuel)
    (hk : reportsAfter os TI (events.map (fun p => (heap p).handle)) waitAll timeout r n w.os
      = true) :
    ∃ heap1 w1,
      os_waitEvents os TI app fuel heap w events waitAll timeout = some (true, heap1, w1) ∧
      ∀ (i : Nat) (hi : i < events.length), i ≠ r →
        (heap events[i]).reset = false → (heap events[i]).signaled = true →
        (heap1 events[i]).signaled = true ∧
          ∀ (fuel2 : Nat) (w2 : World σ),
            os_waitEvent os TI app fuel2 w2 (heap1 events[i]) 0 =
              some (true, heap1 events[i], w2) := by
  obtain ⟨w1, hw1⟩ := os_waitEvents_loop_reports os TI app events waitAll timeout
    (events.map (fun p => (heap p).handle)) fuel r hr (by simp) heap n fuel w hfuel hk
  obtain ⟨heap1, handles1, hp, hq⟩ := os_waitEvents_poll_owned os TI app fuel r events 0 heap
    (events.map (fun p => (heap p).handle)) w1 howned
  refine ⟨heap1, w1, ?_, ?_⟩
  · unfold os_waitEvents
    rw [hw1, hp]
    rfl
  · intro i hi _ hreset hsig
    have hmem : events[i] ∈ events := List.getElem_mem hi
    have heq : heap1 events[i] = heap events[i] := (hq events[i]).2.2 hreset
    rw [heq]
    exact ⟨hsig, fun fuel2 w2 =>
      os_waitEvent_manual_signaled os TI app fuel2 w2 _ 0 (howned _ hmem) hreset hsig⟩

/-- C10, amended, witness: on the reference kernel two manual-reset events are
both signaled and the kernel wait reports slot 0; the second event keeps its
cached flag. -/
theorem os_waitEvents_keeps_manual_flag_witness :
    ∃ heap1 w1,
      os_waitEvents simOS Sim.TIMEOUT_INFINITE Sim.app 1 (Sim.setup false true []).1
          (Sim.setup false true []).2 [4096, 4160] false Sim.TIMEOUT_INFINITE =
        some (true, heap1, w1) ∧
      (heap1 4160).signaled = true :=
  have h := os_waitEvents_keeps_manual_flag simOS Sim.TIMEOUT_INFINITE Sim.app
    (Sim.setup false true []).1 (Sim.setup false true []).2 [4096, 4160] false
    Sim.TIMEOUT_INFINITE 0 0 1 (by decide) (by decide) (by decide) (by decide)
  match h with
  | ⟨heap1, w1, h1, h2⟩ =>
    ⟨heap1, w1, h1, (h2 1 (by decide) (by decide) (by decide) (by decide)).1⟩

end LookingGlass
